import Mathlib

/-!
Shallow embedding of the round engine of `src/guessnumber.py` (a console
"guess the number" game) and verification of the frozen claims about it.

Python's unbounded `int` is modelled as `Int`; the float expression
`math.ceil(math.log2(R))` is modelled by the exact base-2 ceiling logarithm
(see `ceil_log2`, proved equal to `Nat.clog 2`), and the float threshold
expressions `int(0.01 * R)`, `int(0.03 * R)`, `int(0.07 * R)` are modelled
by the exact rational floors `R / 100`, `3 * R / 100`, `7 * R / 100` in `Nat`
(Python truncation toward zero on a nonnegative value is the floor; the
float products agree with the exact rationals for every range size the
program can realistically receive).  File-system effects of the score store
are modelled by an explicit storage state whose decodable contents are
arbitrary JSON values, since the program validates nothing it reads; the
exceptions an unvalidated value can cause are modelled with `Except`.
-/

namespace GuessNumber

/-- Difficulty presets accepted by the CLI (`--difficulty` has
`choices=["easy", "normal", "hard"]`). -/
inductive Difficulty
  | easy
  | normal
  | hard
deriving DecidableEq

/-- Fuel-driven base-2 ceiling logarithm: `ceil_log2_fuel fuel R` computes
the least `k` with `R ≤ 2 ^ k` as long as `R ≤ fuel + 1`.  The fuel makes
the recursion structural so that concrete values reduce in the kernel. -/
def ceil_log2_fuel : Nat → Nat → Nat
  | 0, _ => 0
  | fuel + 1, R => if R ≤ 1 then 0 else ceil_log2_fuel fuel ((R + 1) / 2) + 1

/-- Exact value of `math.ceil(math.log2 R)` for `R ≥ 1`: the base-2 ceiling
logarithm.  Proved equal to Mathlib's `Nat.clog 2` in `ceil_log2_eq_clog`. -/
def ceil_log2 (R : Nat) : Nat :=
  ceil_log2_fuel R R

/-- Embedding of `compute_attempts(min_v, max_v, difficulty, attempts_override)`
(src/guessnumber.py lines 203-215): an explicit override is clamped to at
least 1; otherwise the budget is `ceil(log2 R)` plus a difficulty slack. -/
def compute_attempts (min_v max_v : Int) (difficulty : Difficulty)
    (attempts_override : Option Int) : Int :=
  match attempts_override with
  | some k => max 1 k
  | none =>
    let R : Nat := (max_v - min_v + 1).toNat
    let base : Int := (ceil_log2 R : Nat)
    match difficulty with
    | Difficulty.easy => base + 2
    | Difficulty.normal => base + 1
    | Difficulty.hard => base

/-- Four proximity tiers returned by `proximity_label` (the Python function
returns the corresponding localized string; the strings are distinct, so the
tier is the faithful abstraction). -/
inductive Proximity
  | veryHot
  | hot
  | warm
  | cold
deriving DecidableEq

/-- Embedding of `proximity_label(guess, secret, min_v, max_v, strings)`
(src/guessnumber.py lines 224-234).  `R = max_v - min_v + 1` and
`d = abs(guess - secret)` are computed in `Nat` (`R` is positive whenever the
function is reached, since `main` rejects `min_v ≥ max_v`); the thresholds
`int(0.01*R)`, `int(0.03*R)`, `int(0.07*R)` are the exact floors. -/
def proximity_label (guess secret min_v max_v : Int) : Proximity :=
  let R : Nat := (max_v - min_v + 1).toNat
  let d : Nat := (guess - secret).natAbs
  if d ≤ max 1 (R / 100) then Proximity.veryHot
  else if d ≤ max 1 (3 * R / 100) then Proximity.hot
  else if d ≤ max 1 (7 * R / 100) then Proximity.warm
  else Proximity.cold

/-- Embedding of `score_formula(attempts_total, attempts_used)`
(src/guessnumber.py lines 262-266). -/
def score_formula (attempts_total attempts_used : Int) : Int :=
  let base : Int := 100
  let remaining : Int := max 0 (attempts_total - attempts_used)
  let bonus : Int := 10 * remaining
  base + bonus

/-- Feedback events printed by the round loop: directional hints, optional
proximity hints, and the remaining-attempts count after a wrong guess. -/
inductive Event
  | tooLow
  | tooHigh
  | prox (p : Proximity)
  | remaining (n : Int)
deriving DecidableEq

/-- Boolean check that an event is not a negative remaining-attempts
announcement (used to state the `remaining ≥ 0` invariant). -/
def remaining_nonneg (e : Event) : Bool :=
  match e with
  | Event.remaining n => decide (0 ≤ n)
  | _ => true

/-- Embedding of the guessing loop of `play_round` (src/guessnumber.py lines
353-380).  The caller-supplied guess list stands for the stream of validated
integers produced by `read_int`; exhausting it while the loop still wants a
guess corresponds to `EOFError` aborting the round, modelled as `none`.
The result is `(won, used, events)` exactly as left by the loop: the winning
guess breaks out *before* `used += 1`, a wrong guess increments `used` and
emits a directional hint, an optional proximity hint, and the remaining
count `attempts_total - used`. -/
def play_loop (secret min_v max_v attempts_total : Int) (proximity : Bool) :
    List Int → Int → Option (Bool × Int × List Event)
  | [], used =>
    if used < attempts_total then none else some (false, used, [])
  | guess :: rest, used =>
    if used < attempts_total then
      if guess = secret then
        some (true, used, [])
      else
        let dir : Event := if guess < secret then Event.tooLow else Event.tooHigh
        let hints : List Event :=
          if proximity then [Event.prox (proximity_label guess secret min_v max_v)]
          else []
        (play_loop secret min_v max_v attempts_total proximity rest (used + 1)).map
          (fun r => (r.1, r.2.1,
            dir :: hints ++ Event.remaining (attempts_total - (used + 1)) :: r.2.2))
    else
      some (false, used, [])

/-- Count reported by the win message and fed to `score_formula` on a win:
the Python expression `used if used else 1` (src/guessnumber.py lines
384-387). -/
def win_display_used (used : Int) : Int :=
  if used = 0 then 1 else used

/-- Embedding of `play_round` (src/guessnumber.py lines 335-391).  The
`secret` parameter stands for the value drawn by `pick_secret` from the
injected RNG; `attempts_total` is computed by `compute_attempts`.  The
returned triple extends the Python return value
`(won, used if used else (0 if not won else 1), score)` with the emitted
feedback events; `score` is `score_formula(attempts_total, used if used
else 1)` on a win and `0` otherwise. -/
def play_round (min_v max_v : Int) (difficulty : Difficulty)
    (attempts_override : Option Int) (proximity : Bool) (secret : Int)
    (guesses : List Int) : Option (Bool × Int × Int × List Event) :=
  let attempts_total := compute_attempts min_v max_v difficulty attempts_override
  match play_loop secret min_v max_v attempts_total proximity guesses 0 with
  | none => none
  | some (won, used, evs) =>
    let score : Int :=
      if won then score_formula attempts_total (win_display_used used) else 0
    let used_report : Int := if used = 0 then (if won then 1 else 0) else used
    some (won, used_report, score, evs)

/-- JSON values, as decoded by `json.load`.  Numeric values are modelled as
integers (every value the program writes is an integer; a float in a
hand-edited file would behave like its truncation under `int(·)`).  Objects
are association lists; the program writes unique keys, and lookup takes the
first occurrence. -/
inductive Json
  | null
  | bool (b : Bool)
  | num (n : Int)
  | str (s : String)
  | arr (elems : List Json)
  | obj (fields : List (String × Json))

/-- Python truthiness of a decoded JSON value, as used by the expression
`load_score(score_path) or {}` in `update_and_store_score`:
`None`, `False`, `0`, `""`, `[]` and `{}` are falsy. -/
def json_truthy : Json → Bool
  | Json.null => false
  | Json.bool b => b
  | Json.num n => n != 0
  | Json.str s => !s.data.isEmpty
  | Json.arr elems => !elems.isEmpty
  | Json.obj fields => !fields.isEmpty

/-- Python `prev_obj.get(key)`: defined only on dicts — `none` here signals
the `AttributeError` raised on any other receiver.  A missing key and an
explicit JSON `null` value are the same Python `None`, returned as
`Json.null`. -/
def dict_get : Json → String → Option Json
  | Json.obj fields, key =>
      some (((fields.find? (fun p => p.1 == key)).map Prod.snd).getD Json.null)
  | _, _ => none

/-- Value of a nonempty all-digit character list, or `none` otherwise. -/
def digits_to_nat (cs : List Char) : Option Nat :=
  if cs.isEmpty then none
  else
    cs.foldl
      (fun acc c =>
        match acc with
        | none => none
        | some n => if c.isDigit then some (n * 10 + (c.toNat - 48)) else none)
      (some 0)

/-- Decimal integer literal: an optional sign followed by digits, modelling
Python `int(·)` on strings.  (Python additionally strips surrounding
whitespace and allows digit-group underscores; no value the program writes
contains either.) -/
def str_to_int (s : String) : Option Int :=
  match s.data with
  | [] => none
  | c :: rest =>
    if c = '-' then (digits_to_nat rest).map (fun n => -(n : Int))
    else if c = '+' then (digits_to_nat rest).map (fun n => (n : Int))
    else (digits_to_nat (c :: rest)).map (fun n => (n : Int))

/-- Python `int(x)` on a decoded JSON value: numbers are already integers,
booleans convert to 0/1, strings are parsed; `none` signals the
`TypeError`/`ValueError` raised on anything else. -/
def python_int : Json → Option Int
  | Json.num n => some n
  | Json.bool b => some (if b then 1 else 0)
  | Json.str s => str_to_int s
  | _ => none

/-- Persisted best-score record: the object written by
`update_and_store_score` with fields `best_score`, `best_range`,
`timestamp`. -/
structure ScoreRecord where
  best_score : Int
  best_range : Int × Int
  timestamp : Int

/-- JSON encoding of a record, exactly as `update_and_store_score` builds
the dict it passes to `save_score`. -/
def ScoreRecord.toJson (r : ScoreRecord) : Json :=
  Json.obj
    [("best_score", Json.num r.best_score),
     ("best_range", Json.arr [Json.num r.best_range.1, Json.num r.best_range.2]),
     ("timestamp", Json.num r.timestamp)]

/-- State of the score-store file: missing, unreadable (open raises),
undecodable (json.load raises), or holding text that decodes to an
arbitrary JSON value — the program enforces no schema on what it reads, so
every decodable value is a reachable state. -/
inductive Storage
  | missing
  | unreadable
  | undecodable
  | decoded (v : Json)

/-- Embedding of `load_score(path)` (src/guessnumber.py lines 274-281): a
missing file returns `None`, and any exception while opening or decoding is
swallowed and also returns `None`; otherwise the decoded JSON value is
returned as-is, with no validation of its shape. -/
def load_score : Storage → Option Json
  | Storage.missing => none
  | Storage.unreadable => none
  | Storage.undecodable => none
  | Storage.decoded v => some v

/-- Embedding of `save_score(path, obj)` (src/guessnumber.py lines 284-289)
at the record objects the program writes: the file afterwards decodes to
that object.  Write errors are swallowed in the Python code; the model
records the intended contents. -/
def save_score (r : ScoreRecord) : Storage :=
  Storage.decoded (ScoreRecord.toJson r)

/-- Exceptions `update_and_store_score` can raise on unvalidated loaded
values: `AttributeError` from `.get` on a non-dict, `ValueError` (or
`TypeError`) from `int(·)`.  Both escape to the catch-all handler in
`main`, which ends the session with exit code 1. -/
inductive PyError
  | attributeError
  | valueError

/-- Embedding of `update_and_store_score(score_path, new_score, min_v, max_v)`
(src/guessnumber.py lines 292-310), with the wall clock passed in as `now`
and the file state threaded explicitly.  Returns the Python triple
`(is_record, prev_best, current_best)` — or the exception raised while
computing it — paired with the resulting file state, which is unchanged
when an exception is raised, since saving happens last.  The previous-best
component is returned as its integer value (Python returns the raw loaded
value, which is that integer for every record the program writes). -/
def update_and_store_score (store : Storage) (now : Int)
    (new_score min_v max_v : Int) :
    Except PyError (Bool × Option Int × Int) × Storage :=
  let prev_obj : Json :=
    match load_score store with
    | none => Json.obj []
    | some v => if json_truthy v then v else Json.obj []
  match dict_get prev_obj "best_score" with
  | none => (Except.error PyError.attributeError, store)
  | some Json.null =>
      (Except.ok (true, none, new_score),
        save_score ⟨new_score, (min_v, max_v), now⟩)
  | some pv =>
      match python_int pv with
      | none => (Except.error PyError.valueError, store)
      | some pb =>
        if new_score > pb then
          (Except.ok (true, some pb, new_score),
            save_score ⟨new_score, (min_v, max_v), now⟩)
        else
          (Except.ok (false, some pb, pb), store)

/-- Configuration-error exits of `main` (src/guessnumber.py lines 403-409):
the range check and the attempts check, both exiting with code 2. -/
inductive ConfigError
  | range
  | attempts
deriving DecidableEq

/-- Embedding of the configuration validation at the top of `main`
(src/guessnumber.py lines 403-409): first the range check `min_v < max_v`,
then the check that the computed attempt budget is at least 1. -/
def main_config_check (min_v max_v : Int) (difficulty : Difficulty)
    (attempts_override : Option Int) : Option ConfigError :=
  if ¬(min_v < max_v) then some ConfigError.range
  else if compute_attempts min_v max_v difficulty attempts_override < 1 then
    some ConfigError.attempts
  else none

/-- The fuel-based ceiling logarithm agrees with Mathlib's `Nat.clog 2` as
long as the fuel dominates the argument. -/
theorem ceil_log2_fuel_eq_clog : ∀ (f R : Nat), R ≤ f + 1 →
    ceil_log2_fuel (f + 1) R = Nat.clog 2 R := by
  intro f
  induction f with
  | zero =>
    intro R hR
    have h1 : R ≤ 1 := by omega
    simp [ceil_log2_fuel, h1, Nat.clog_of_right_le_one h1]
  | succ f ih =>
    intro R hR
    by_cases h1 : R ≤ 1
    · simp [ceil_log2_fuel, h1, Nat.clog_of_right_le_one h1]
    · have h2 : 2 ≤ R := by omega
      have hhalf : (R + 1) / 2 ≤ f + 1 := by omega
      have harg : (R + 2 - 1) / 2 = (R + 1) / 2 := by omega
      rw [show ceil_log2_fuel (f + 1 + 1) R = ceil_log2_fuel (f + 1) ((R + 1) / 2) + 1 by
        simp [ceil_log2_fuel, h1]]
      rw [ih ((R + 1) / 2) hhalf, Nat.clog_of_two_le (by norm_num) h2, harg]

/-- The executable `ceil_log2` is exactly the base-2 ceiling logarithm
`Nat.clog 2`. -/
theorem ceil_log2_eq_clog (R : Nat) : ceil_log2 R = Nat.clog 2 R := by
  cases R with
  | zero => simp [ceil_log2, ceil_log2_fuel]
  | succ n => exact ceil_log2_fuel_eq_clog n (n + 1) (by omega)

/-- Every attempt budget computed for a valid range is at least 1, whatever
the difficulty and the optional override. -/
theorem compute_attempts_pos (min_v max_v : Int) (d : Difficulty)
    (ov : Option Int) (h : min_v < max_v) :
    1 ≤ compute_attempts min_v max_v d ov := by
  cases ov with
  | some k => exact le_max_left 1 k
  | none =>
    have hR : 2 ≤ (max_v - min_v + 1).toNat := by omega
    have hpos : 0 < Nat.clog 2 (max_v - min_v + 1).toNat :=
      Nat.clog_pos (by norm_num) hR
    cases d <;> simp [compute_attempts, ceil_log2_eq_clog] <;> omega

/-- The win/used outcome of the guessing loop does not depend on the
proximity flag: the flag only contributes extra `Event.prox` output. -/
theorem play_loop_prox_irrelevant (secret min_v max_v total : Int) :
    ∀ (gs : List Int) (used : Int),
      (play_loop secret min_v max_v total true gs used).map (fun r => (r.1, r.2.1))
        = (play_loop secret min_v max_v total false gs used).map
            (fun r => (r.1, r.2.1)) := by
  intro gs
  induction gs with
  | nil => intro used; rfl
  | cons g rest ih =>
    intro used
    by_cases hlt : used < total
    · by_cases hg : g = secret
      · simp [play_loop, hlt, hg]
      · simp only [play_loop, if_pos hlt, if_neg hg, Option.map_map]
        exact ih (used + 1)
    · simp [play_loop, hlt]

/-- Run invariant of the guessing loop: the attempts counter only grows,
never exceeds the budget, and every emitted remaining-attempts count is
nonnegative. -/
theorem play_loop_invariant (secret min_v max_v total : Int) (prox : Bool) :
    ∀ (gs : List Int) (used0 : Int), 0 ≤ used0 → used0 ≤ total →
      ∀ (w : Bool) (u : Int) (evs : List Event),
        play_loop secret min_v max_v total prox gs used0 = some (w, u, evs) →
        used0 ≤ u ∧ u ≤ total ∧ evs.all remaining_nonneg = true := by
  intro gs
  induction gs with
  | nil =>
    intro used0 h0 h1 w u evs heq
    by_cases hlt : used0 < total
    · simp [play_loop, hlt] at heq
    · simp [play_loop, hlt] at heq
      obtain ⟨-, h2, h3⟩ := heq
      subst h2; subst h3
      exact ⟨le_refl _, h1, rfl⟩
  | cons g rest ih =>
    intro used0 h0 h1 w u evs heq
    by_cases hlt : used0 < total
    · by_cases hg : g = secret
      · simp [play_loop, hlt, hg] at heq
        obtain ⟨-, h2, h3⟩ := heq
        subst h2; subst h3
        exact ⟨le_refl _, h1, rfl⟩
      · simp only [play_loop, if_pos hlt, if_neg hg] at heq
        rcases hrec : play_loop secret min_v max_v total prox rest (used0 + 1) with
          - | r
        · rw [hrec] at heq; simp at heq
        · obtain ⟨w2, u2, evs2⟩ := r
          rw [hrec] at heq
          simp only [Option.map_some'] at heq
          have hinj := Option.some.inj heq
          rw [Prod.mk.injEq, Prod.mk.injEq] at hinj
          obtain ⟨e1, e2, e3⟩ := hinj
          subst e1; subst e2; subst e3
          obtain ⟨ia, ib, ic⟩ := ih (used0 + 1) (by omega) (by omega) w2 u2 evs2 hrec
          refine ⟨by omega, by omega, ?_⟩
          simp only [List.all_cons, List.all_append, Bool.and_eq_true]
          refine ⟨⟨?_, ?_⟩, ?_, ic⟩
          · by_cases hdir : g < secret <;> simp [hdir, remaining_nonneg]
          · cases prox <;> simp [remaining_nonneg]
          · simp only [remaining_nonneg, decide_eq_true_eq]
            omega
    · simp [play_loop, hlt] at heq
      obtain ⟨-, h2, h3⟩ := heq
      subst h2; subst h3
      exact ⟨le_refl _, h1, rfl⟩

/-- C3: for every `min < max`, every difficulty and every optional
override, `compute_attempts` returns `max 1 override` when the override is
given, and otherwise `⌈log₂ R⌉ + 2 / + 1 / + 0` for easy / normal / hard,
where `R = max - min + 1`. -/
theorem C3_compute_attempts_spec (min_v max_v : Int) (h : min_v < max_v) :
    (∀ (d : Difficulty) (k : Int),
      compute_attempts min_v max_v d (some k) = max 1 k)
    ∧ compute_attempts min_v max_v Difficulty.easy none
        = (Nat.clog 2 (max_v - min_v + 1).toNat : Int) + 2
    ∧ compute_attempts min_v max_v Difficulty.normal none
        = (Nat.clog 2 (max_v - min_v + 1).toNat : Int) + 1
    ∧ compute_attempts min_v max_v Difficulty.hard none
        = (Nat.clog 2 (max_v - min_v + 1).toNat : Int) := by
  refine ⟨fun d k => rfl, ?_, ?_, ?_⟩ <;> simp [compute_attempts, ceil_log2_eq_clog]

/-- Witness for C3: `min=1, max=100, normal` yields an attempt budget
of `⌈log₂ 100⌉ + 1 = 8`. -/
theorem C3_compute_attempts_spec_witness :
    (1 : Int) < 100 ∧ compute_attempts 1 100 Difficulty.normal none = 8 := by
  refine ⟨by norm_num, ?_⟩
  have h := (C3_compute_attempts_spec 1 100 (by norm_num)).2.2.1
  rw [h, ← ceil_log2_eq_clog]
  decide

/-- C10: once the range check `min < max` has passed, the computed attempt
budget is at least 1 for every difficulty and override, so the
"attempts must be >= 1" error branch of `main` can never fire. -/
theorem C10_attempts_error_unreachable (min_v max_v : Int) (d : Difficulty)
    (ov : Option Int) (h : min_v < max_v) :
    1 ≤ compute_attempts min_v max_v d ov
    ∧ main_config_check min_v max_v d ov = none := by
  have hp := compute_attempts_pos min_v max_v d ov h
  refine ⟨hp, ?_⟩
  simp only [main_config_check, h, not_true_eq_false, if_false, ite_eq_right_iff]
  intro hlt
  omega

/-- Witness for C10 at `min=1, max=100, normal`, no override. -/
theorem C10_attempts_error_unreachable_witness :
    (1 : Int) < 100
    ∧ (1 ≤ compute_attempts 1 100 Difficulty.normal none
       ∧ main_config_check 1 100 Difficulty.normal none = none) :=
  ⟨by norm_num, C10_attempts_error_unreachable 1 100 Difficulty.normal none (by norm_num)⟩

/-- Counterexample to C4 as stated: the score is not strictly decreasing in
`usedCount` over all inputs — beyond `usedCount = attemptsTotal` the clamp
`max 0 _` freezes the score at 100. -/
theorem C4_strict_decrease_counterexample :
    (3 : Int) < 4 ∧ score_formula 3 4 = score_formula 3 3 := by decide

/-- C4 (amended): `score_formula total used = 100 + 10 * max 0 (total - used)`;
it is strictly decreasing in `used` on the meaningful domain
`used ≤ total`, and equals `100 + 10 * (total - 1)` at `used = 1` whenever
`total ≥ 1`. -/
theorem C4_score_formula_spec (total u1 u2 used : Int) (h1 : u1 < u2)
    (h2 : u2 ≤ total) (ht : 1 ≤ total) :
    score_formula total used = 100 + 10 * max 0 (total - used)
    ∧ score_formula total u2 < score_formula total u1
    ∧ score_formula total 1 = 100 + 10 * (total - 1) := by
  refine ⟨rfl, ?_, ?_⟩
  · simp only [score_formula]
    rw [max_eq_right (by omega : (0:Int) ≤ total - u2),
      max_eq_right (by omega : (0:Int) ≤ total - u1)]
    omega
  · simp only [score_formula]
    rw [max_eq_right (by omega : (0:Int) ≤ total - 1)]

/-- Witness for C4 at `total = 3`, `u1 = 1 < u2 = 2`, `used = 5`. -/
theorem C4_score_formula_spec_witness :
    ((1 : Int) < 2 ∧ (2 : Int) ≤ 3 ∧ (1 : Int) ≤ 3)
    ∧ (score_formula 3 5 = 100 + 10 * max 0 (3 - 5)
       ∧ score_formula 3 2 < score_formula 3 1
       ∧ score_formula 3 1 = 100 + 10 * (3 - 1)) :=
  ⟨by decide, C4_score_formula_spec 3 1 2 5 (by decide) (by decide) (by decide)⟩

/-- C2: whenever the very first guess equals the secret, the round reports
`usedCount = 1` (never 0) and the score is computed from count 1, even
though the internal counter is still 0 (`win_display_used 0 = 1`). -/
theorem C2_first_guess_win (min_v max_v : Int) (d : Difficulty)
    (ov : Option Int) (prox : Bool) (secret : Int) (rest : List Int)
    (h : min_v < max_v) :
    play_round min_v max_v d ov prox secret (secret :: rest)
      = some (true, 1, score_formula (compute_attempts min_v max_v d ov) 1, [])
    ∧ win_display_used 0 = 1 := by
  have hp := compute_attempts_pos min_v max_v d ov h
  have hlt : (0 : Int) < compute_attempts min_v max_v d ov := by omega
  refine ⟨?_, rfl⟩
  simp [play_round, play_loop, hlt, win_display_used]

/-- Witness for C2: an immediate first-guess win on `min=1, max=10, normal`
reports one used attempt and a score of `100 + 10 * (5 - 1) = 140`. -/
theorem C2_first_guess_win_witness :
    (1 : Int) < 10
    ∧ play_round 1 10 Difficulty.normal none false 3 [3] = some (true, 1, 140, [])
    ∧ win_display_used 0 = 1 := by
  have h := C2_first_guess_win 1 10 Difficulty.normal none false 3 [] (by norm_num)
  have hs : score_formula (compute_attempts 1 10 Difficulty.normal none) 1 = 140 := by
    decide
  rw [hs] at h
  exact ⟨by norm_num, h.1, h.2⟩

/-- C1 fails on the code: with `min=1, max=10, normal` (budget 5), one
wrong guess (`5`) followed by the correct value `3` on the second prompted
attempt yields `usedCount = 1` and `score = 140 = 100 + 10 * (5 - 1)`,
not `usedCount = 2` and `score = 100 + 10 * (5 - 2)` as claimed: the
winning guess breaks out of the loop before `used += 1`, so the final
count is `max 1 wrongGuesses`, not `wrongGuesses + 1`. -/
theorem C1_win_count_not_incremented :
    play_round 1 10 Difficulty.normal none false 3 [5, 3]
      = some (true, 1, 140, [Event.tooHigh, Event.remaining 4])
    ∧ compute_attempts 1 10 Difficulty.normal none = 5
    ∧ (140 : Int) = 100 + 10 * (5 - 1) := by decide

/-- C5: with `R = max - min + 1` and `d = |guess - secret|`, the proximity
classifier returns VeryHot iff `d ≤ max 1 ⌊R/100⌋`, else Hot iff
`d ≤ max 1 ⌊3R/100⌋`, else Warm iff `d ≤ max 1 ⌊7R/100⌋`, else Cold —
each threshold floored at 1. -/
theorem C5_proximity_tiers (guess secret min_v max_v : Int) (h : min_v < max_v) :
    (proximity_label guess secret min_v max_v = Proximity.veryHot
      ↔ |guess - secret| ≤ max 1 ((max_v - min_v + 1) / 100))
    ∧ (proximity_label guess secret min_v max_v = Proximity.hot
      ↔ ¬(|guess - secret| ≤ max 1 ((max_v - min_v + 1) / 100))
        ∧ |guess - secret| ≤ max 1 (3 * (max_v - min_v + 1) / 100))
    ∧ (proximity_label guess secret min_v max_v = Proximity.warm
      ↔ ¬(|guess - secret| ≤ max 1 (3 * (max_v - min_v + 1) / 100))
        ∧ |guess - secret| ≤ max 1 (7 * (max_v - min_v + 1) / 100))
    ∧ (proximity_label guess secret min_v max_v = Proximity.cold
      ↔ ¬(|guess - secret| ≤ max 1 (7 * (max_v - min_v + 1) / 100))) := by
  have hd : |guess - secret| = ((guess - secret).natAbs : Int) :=
    Int.abs_eq_natAbs _
  have b1 : (|guess - secret| ≤ max 1 ((max_v - min_v + 1) / 100))
      ↔ ((guess - secret).natAbs ≤ max 1 ((max_v - min_v + 1).toNat / 100)) := by
    rw [hd]; omega
  have b2 : (|guess - secret| ≤ max 1 (3 * (max_v - min_v + 1) / 100))
      ↔ ((guess - secret).natAbs ≤ max 1 (3 * (max_v - min_v + 1).toNat / 100)) := by
    rw [hd]; omega
  have b3 : (|guess - secret| ≤ max 1 (7 * (max_v - min_v + 1) / 100))
      ↔ ((guess - secret).natAbs ≤ max 1 (7 * (max_v - min_v + 1).toNat / 100)) := by
    rw [hd]; omega
  rw [b1, b2, b3]
  simp only [proximity_label]
  by_cases h1 : (guess - secret).natAbs ≤ max 1 ((max_v - min_v + 1).toNat / 100) <;>
  by_cases h2 :
    (guess - secret).natAbs ≤ max 1 (3 * (max_v - min_v + 1).toNat / 100) <;>
  by_cases h3 :
    (guess - secret).natAbs ≤ max 1 (7 * (max_v - min_v + 1).toNat / 100) <;>
  simp [h1, h2, h3] <;> omega

/-- Witness for C5 at `min=1, max=100`, guess 5, secret 3: distance 2 lands
strictly above the VeryHot threshold `max 1 ⌊100/100⌋ = 1` and within the
Hot threshold `max 1 ⌊300/100⌋ = 3`. -/
theorem C5_proximity_tiers_witness :
    (1 : Int) < 100
    ∧ (proximity_label 5 3 1 100 = Proximity.hot
      ↔ ¬(|(5 : Int) - 3| ≤ max 1 ((100 - 1 + 1) / 100))
        ∧ |(5 : Int) - 3| ≤ max 1 (3 * (100 - 1 + 1) / 100)) :=
  ⟨by norm_num, (C5_proximity_tiers 5 3 1 100 (by norm_num)).2.1⟩

/-- C6: proximity output is advisory only — for the same secret and the
same guess sequence, a round with proximity hints enabled and one with them
disabled produce the same win/loss outcome, the same reported used count
and the same score; only the emitted event trace differs. -/
theorem C6_proximity_noninterference (min_v max_v : Int) (d : Difficulty)
    (ov : Option Int) (secret : Int) (guesses : List Int) :
    (play_round min_v max_v d ov true secret guesses).map
        (fun r => (r.1, r.2.1, r.2.2.1))
      = (play_round min_v max_v d ov false secret guesses).map
        (fun r => (r.1, r.2.1, r.2.2.1)) := by
  have h := play_loop_prox_irrelevant secret min_v max_v
    (compute_attempts min_v max_v d ov) guesses 0
  simp only [play_round]
  rcases hT : play_loop secret min_v max_v (compute_attempts min_v max_v d ov)
      true guesses 0 with - | ⟨w, u, evs⟩ <;>
  rcases hF : play_loop secret min_v max_v (compute_attempts min_v max_v d ov)
      false guesses 0 with - | ⟨w2, u2, evs2⟩ <;>
  rw [hT, hF] at h <;> simp_all

/-- C7: submitting an in-range wrong guess to an in-progress round consumes
exactly one attempt — the loop continues from `used0 + 1` with the same
outcome — and announces `remaining = total - (used0 + 1) ≥ 0`; over a whole
round the counter is monotone and stays within `[0, attemptsTotal]`, and
every announced remaining count is nonnegative. -/
theorem C7_attempt_accounting (secret min_v max_v total : Int) (prox : Bool)
    (g : Int) (rest : List Int) (used0 : Int) (w : Bool) (u : Int)
    (evs : List Event) (h0 : 0 ≤ used0) (h1 : used0 ≤ total)
    (heq : play_loop secret min_v max_v total prox (g :: rest) used0
      = some (w, u, evs)) :
    (used0 ≤ u ∧ 0 ≤ u ∧ u ≤ total ∧ evs.all remaining_nonneg = true)
    ∧ (used0 < total → g ≠ secret →
        (play_loop secret min_v max_v total prox rest (used0 + 1)).map
            (fun r => (r.1, r.2.1)) = some (w, u)
        ∧ Event.remaining (total - (used0 + 1)) ∈ evs
        ∧ 0 ≤ total - (used0 + 1)) := by
  constructor
  · obtain ⟨ha, hb, hc⟩ :=
      play_loop_invariant secret min_v max_v total prox (g :: rest) used0 h0 h1
        w u evs heq
    exact ⟨ha, by omega, hb, hc⟩
  · intro hlt hg
    simp only [play_loop, if_pos hlt, if_neg hg] at heq
    rcases hrec : play_loop secret min_v max_v total prox rest (used0 + 1) with
      - | r
    · rw [hrec] at heq; simp at heq
    · obtain ⟨w2, u2, evs2⟩ := r
      rw [hrec] at heq
      simp only [Option.map_some'] at heq
      have hinj := Option.some.inj heq
      rw [Prod.mk.injEq, Prod.mk.injEq] at hinj
      obtain ⟨e1, e2, e3⟩ := hinj
      subst e1; subst e2
      refine ⟨rfl, ?_, by omega⟩
      rw [← e3]
      simp [List.mem_cons, List.mem_append]

/-- Witness for C7: secret 3 in `[1,10]` with budget 5, wrong guess 5 then
winning guess 3, starting from a fresh counter. -/
theorem C7_attempt_accounting_witness :
    ((0 : Int) ≤ 0 ∧ (0 : Int) ≤ 5)
    ∧ (((0 : Int) ≤ 1 ∧ (0 : Int) ≤ 1 ∧ (1 : Int) ≤ 5
        ∧ ([Event.tooHigh, Event.remaining 4]).all remaining_nonneg = true)
      ∧ ((0 : Int) < 5 → (5 : Int) ≠ 3 →
          (play_loop 3 1 10 5 false [3] (0 + 1)).map (fun r => (r.1, r.2.1))
              = some (true, 1)
          ∧ Event.remaining (5 - (0 + 1)) ∈ [Event.tooHigh, Event.remaining 4]
          ∧ (0 : Int) ≤ 5 - (0 + 1))) :=
  ⟨⟨le_refl 0, by decide⟩,
    C7_attempt_accounting 3 1 10 5 false 5 [3] 0 true 1
      [Event.tooHigh, Event.remaining 4] (by decide) (by decide) (by decide)⟩

/-- C8: a non-improving update (`newScore ≤ previousBest`) reports
`isRecord = false` with `currentBest = previousBest` and leaves the stored
record completely untouched; repeating the non-improving update changes
nothing either. -/
theorem C8_non_record_leaves_store (store : Storage)
    (now now2 new_score min_v max_v : Int) (r : ScoreRecord)
    (hload : load_score store = some (ScoreRecord.toJson r))
    (hle : new_score ≤ r.best_score) :
    update_and_store_score store now new_score min_v max_v
      = (Except.ok (false, some r.best_score, r.best_score), store)
    ∧ update_and_store_score
        (update_and_store_score store now new_score min_v max_v).2
        now2 new_score min_v max_v
      = (Except.ok (false, some r.best_score, r.best_score), store) := by
  have key : ∀ t : Int, update_and_store_score store t new_score min_v max_v
      = (Except.ok (false, some r.best_score, r.best_score), store) := by
    intro t
    have hgt : ¬new_score > r.best_score := by omega
    simp [update_and_store_score, hload, ScoreRecord.toJson, json_truthy,
      dict_get, python_int, List.find?, hgt]
  refine ⟨key now, ?_⟩
  rw [key now]
  exact key now2

/-- Witness for C8: a stored best of 120 is not beaten by a new score of
110, twice in a row. -/
theorem C8_non_record_leaves_store_witness :
    (load_score (Storage.decoded (ScoreRecord.toJson ⟨120, (1, 100), 0⟩))
        = some (ScoreRecord.toJson ⟨120, (1, 100), 0⟩)
      ∧ (110 : Int) ≤ 120)
    ∧ (update_and_store_score
          (Storage.decoded (ScoreRecord.toJson ⟨120, (1, 100), 0⟩)) 5 110 1 100
        = (Except.ok (false, some 120, 120),
            Storage.decoded (ScoreRecord.toJson ⟨120, (1, 100), 0⟩))
      ∧ update_and_store_score
          (update_and_store_score
            (Storage.decoded (ScoreRecord.toJson ⟨120, (1, 100), 0⟩)) 5 110 1 100).2
          6 110 1 100
        = (Except.ok (false, some 120, 120),
            Storage.decoded (ScoreRecord.toJson ⟨120, (1, 100), 0⟩))) :=
  ⟨⟨rfl, by decide⟩,
    C8_non_record_leaves_store
      (Storage.decoded (ScoreRecord.toJson ⟨120, (1, 100), 0⟩)) 5 6 110 1 100
      ⟨120, (1, 100), 0⟩ rfl (by decide)⟩

/-- C9 fails on the code: `load_score` performs no schema validation.
Missing, unreadable and undecodable storage do degrade to "no record", and
an update there records the new score; but a file holding decodable
non-record JSON — here the valid JSON text "x" — is returned as-is rather
than as absent, and the subsequent update raises `AttributeError` on
`.get` (or `ValueError` from `int(·)` when a dict holds a non-numeric
`best_score`), escaping to the catch-all in `main` and ending the session
with exit code 1: a hard failure on corrupt storage. -/
theorem C9_corrupt_json_hard_failure :
    (load_score Storage.missing = none ∧ load_score Storage.unreadable = none
      ∧ load_score Storage.undecodable = none)
    ∧ update_and_store_score Storage.undecodable 7 120 1 100
        = (Except.ok (true, none, 120),
            Storage.decoded (Json.obj
              [("best_score", Json.num 120),
               ("best_range", Json.arr [Json.num 1, Json.num 100]),
               ("timestamp", Json.num 7)]))
    ∧ load_score (Storage.decoded (Json.str "x")) = some (Json.str "x")
    ∧ update_and_store_score (Storage.decoded (Json.str "x")) 7 120 1 100
        = (Except.error PyError.attributeError, Storage.decoded (Json.str "x"))
    ∧ update_and_store_score
          (Storage.decoded (Json.obj [("best_score", Json.str "no")])) 7 120 1 100
        = (Except.error PyError.valueError,
            Storage.decoded (Json.obj [("best_score", Json.str "no")])) :=
  ⟨⟨rfl, rfl, rfl⟩, rfl, rfl, rfl, rfl⟩

end GuessNumber
